import Mathlib

/-!
Verification of the Open-Claude-Cowork core against its specification.

The development shallowly embeds the credential vault
(`src/electron/libs/provider-config.ts`), the session store
(`src/electron/libs/session-store.ts`) and the permission gateway
(`runner.ts`, `createCanUseTool`) as executable Lean functions.
Platform primitives (the WHATWG URL parser, `safeStorage`, `fs`,
`path.resolve`) are modelled as explicit parameters or explicit state,
while all logic of the repository itself is translated line by line.
-/

namespace Cowork

/-! ## String helpers modelling the JavaScript string operations used -/

/-- Model of JS `String.prototype.startsWith`. -/
def strStartsWith (s pat : String) : Bool :=
  pat.data.isPrefixOf s.data

/-- Substring containment on character lists. -/
def containsSub (s pat : List Char) : Bool :=
  match s with
  | [] => pat.isEmpty
  | _ :: tail => pat.isPrefixOf s || containsSub tail pat

/-- Model of JS `String.prototype.includes` (substring containment). -/
def strContains (s pat : String) : Bool :=
  containsSub s.data pat.data

/-- ASCII lowercasing, modelling JS `String.prototype.toLowerCase` on the
ASCII hostnames and tool names this program compares. -/
def strToLower (s : String) : String :=
  String.mk (s.data.map Char.toLower)

/-- Model of JS `String.prototype.slice(n)` (drop the first `n` UTF-16 units;
all strings involved are ASCII so characters coincide). -/
def strDrop (s : String) (n : Nat) : String :=
  String.mk (s.data.drop n)

/-! ## Data model (`src/electron/types.ts`) -/

/-- The `models` object of a provider: `{opus?, sonnet?, haiku?}`. -/
structure Models where
  opus : Option String
  sonnet : Option String
  haiku : Option String
deriving DecidableEq, Repr

/-- Internal provider configuration (sensitive, vault-internal). -/
structure LlmProviderConfig where
  id : String
  name : String
  baseUrl : String
  authToken : String
  defaultModel : Option String
  models : Option Models
deriving DecidableEq, Repr

/-- UI-facing provider configuration; structurally has no `authToken` field. -/
structure SafeProviderConfig where
  id : String
  name : String
  baseUrl : String
  defaultModel : Option String
  models : Option Models
  hasToken : Bool
  isDefault : Bool
deriving DecidableEq, Repr

/-- Payload received from the renderer for `provider.save`. -/
structure ProviderSavePayload where
  id : Option String
  name : String
  baseUrl : String
  authToken : Option String
  defaultModel : Option String
  models : Option Models
deriving DecidableEq, Repr

/-! ## URL admission control (`validateProviderUrl`) -/

/-- Result of a successful WHATWG-URL parse: the `protocol` (scheme with a
trailing colon, e.g. `"https:"`) and the `hostname`.  A malformed URL is
modelled as `none` at the call sites. -/
structure ParsedUrl where
  protocol : String
  hostname : String
deriving DecidableEq, Repr

/-- The fixed SSRF deny-list of `validateProviderUrl`, translated
regex-by-regex from `blockedPatterns` (applied to the lowercased hostname). -/
def blockedHostname (h : String) : Bool :=
  (h == "localhost") ||
  strStartsWith h "127." ||
  strStartsWith h "10." ||
  ((List.range 16).map (fun i => "172." ++ toString (16 + i) ++ ".")).any
    (fun pat => strStartsWith h pat) ||
  strStartsWith h "192.168." ||
  strStartsWith h "169.254." ||
  strStartsWith h "0." ||
  (h == "::1") ||
  strStartsWith h "fc00:" ||
  strStartsWith h "fe80:"

/-- Return shape of `validateProviderUrl`. -/
structure UrlValidation where
  valid : Bool
  error : Option String
deriving DecidableEq, Repr

/-- The module-load computation of `ALLOW_LOCAL_PROVIDERS` from the
environment variable `CLAUDE_COWORK_ALLOW_LOCAL_PROVIDERS` (read once). -/
def allowLocalProvidersFlag (envValue : Option String) : Bool :=
  envValue == some "true" || envValue == some "1"

/-- Translation of `validateProviderUrl`.  `allowLocal` is the frozen
process-start flag; `u` is the outcome of `new URL(url)` (`none` models the
constructor throwing on malformed input). -/
def validateProviderUrl (allowLocal : Bool) (u : Option ParsedUrl) : UrlValidation :=
  match u with
  | none => ⟨false, some "Invalid URL format"⟩
  | some parsed =>
    if parsed.protocol != "https:" && parsed.protocol != "http:" then
      ⟨false, some "Only HTTP/HTTPS URLs are allowed"⟩
    else
      let hostname := strToLower parsed.hostname
      if allowLocal then
        ⟨true, none⟩
      else if blockedHostname hostname then
        ⟨false, some "Internal/private URLs are not allowed. Set CLAUDE_COWORK_ALLOW_LOCAL_PROVIDERS=true for local development."⟩
      else
        ⟨true, none⟩

/-- C1: a URL whose (lowercased) hostname matches the fixed deny-list is
rejected by `validateProviderUrl` exactly when the local-override flag is
unset; malformed URLs and non-HTTP(S) schemes are rejected regardless of the
flag. -/
theorem validateProviderUrl_denylist (allowLocal : Bool) (u : Option ParsedUrl) :
    (u = none → (validateProviderUrl allowLocal u).valid = false) ∧
    (∀ p : ParsedUrl, u = some p → p.protocol ≠ "https:" → p.protocol ≠ "http:" →
      (validateProviderUrl allowLocal u).valid = false) ∧
    (∀ p : ParsedUrl, u = some p → (p.protocol = "https:" ∨ p.protocol = "http:") →
      blockedHostname (strToLower p.hostname) = true →
      ((validateProviderUrl allowLocal u).valid = true ↔ allowLocal = true)) := by
  refine ⟨?_, ?_, ?_⟩
  · intro h; subst h; rfl
  · intro p hu h1 h2
    subst hu
    simp only [validateProviderUrl]
    rw [if_pos]
    simp [h1, h2]
  · intro p hu hproto hblock
    subst hu
    simp only [validateProviderUrl]
    rw [if_neg]
    · cases hal : allowLocal with
      | true => simp
      | false => simp [hblock]
    · rcases hproto with h | h <;> simp [h]

/-- Witness for C1 at the concrete input `http://localhost`. -/
theorem validateProviderUrl_denylist_witness :
    (some (ParsedUrl.mk "http:" "localhost") = some (ParsedUrl.mk "http:" "localhost")) ∧
    blockedHostname ((strToLower (ParsedUrl.mk "http:" "localhost").hostname)) = true ∧
    ((validateProviderUrl false (some (ParsedUrl.mk "http:" "localhost"))).valid = true ↔
      false = true) :=
  ⟨rfl, by decide,
    (validateProviderUrl_denylist false (some (ParsedUrl.mk "http:" "localhost"))).2.2
      (ParsedUrl.mk "http:" "localhost") rfl (Or.inr rfl) (by decide)⟩

/-! ## Safe projection (`toSafeProvider`, `loadProvidersSafe`) -/

/-- Default provider template shape used by `default-providers.ts`. -/
structure DefaultProviderConfig extends LlmProviderConfig where
  isDefault : Bool
  envOverrides : List (String × String)
  description : Option String
deriving DecidableEq, Repr

/-- The constant `DEFAULT_PROVIDERS` list from `default-providers.ts`. -/
def DEFAULT_PROVIDERS : List DefaultProviderConfig :=
  [ { id := "anthropic", name := "Anthropic", baseUrl := "https://api.anthropic.com",
      authToken := "", defaultModel := some "claude-sonnet-4-20250514",
      models := some ⟨some "claude-opus-4-20250514", some "claude-sonnet-4-20250514",
        some "claude-haiku-4-20250514"⟩,
      isDefault := true, envOverrides := [], description := some "Official Anthropic API" },
    { id := "minimax", name := "MiniMax", baseUrl := "https://api.minimax.io/anthropic",
      authToken := "", defaultModel := some "MiniMax-M2.1",
      models := some ⟨some "MiniMax-M2.1", some "MiniMax-M2.1", some "MiniMax-M2.1-Lightning"⟩,
      isDefault := true,
      envOverrides := [("ANTHROPIC_MODEL", "MiniMax-M2.1"), ("API_TIMEOUT_MS", "3000000"),
        ("CLAUDE_CODE_DISABLE_NONESSENTIAL_TRAFFIC", "1"),
        ("CLAUDE_CODE_MAX_OUTPUT_TOKENS", "64000")],
      description := some "Cost-effective alternative with fast inference" },
    { id := "openrouter", name := "OpenRouter", baseUrl := "https://openrouter.ai/api/v1",
      authToken := "", defaultModel := some "anthropic/claude-sonnet-4",
      models := some ⟨some "anthropic/claude-opus-4", some "anthropic/claude-sonnet-4",
        some "anthropic/claude-haiku"⟩,
      isDefault := true, envOverrides := [],
      description := some "Multi-provider routing with pay-per-token" },
    { id := "glm", name := "GLM (ChatGLM)", baseUrl := "https://open.bigmodel.cn/api/paas/v4",
      authToken := "", defaultModel := some "glm-4-plus",
      models := some ⟨some "glm-4-plus", some "glm-4-plus", some "glm-4-flash"⟩,
      isDefault := true, envOverrides := [],
      description := some "Chinese AI provider with competitive models" },
    { id := "bedrock", name := "AWS Bedrock",
      baseUrl := "https://bedrock-runtime.us-east-1.amazonaws.com",
      authToken := "", defaultModel := some "anthropic.claude-3-5-sonnet-20241022-v2:0",
      models := some ⟨some "anthropic.claude-3-opus-20240229-v1:0",
        some "anthropic.claude-3-5-sonnet-20241022-v2:0",
        some "anthropic.claude-3-haiku-20240307-v1:0"⟩,
      isDefault := true, envOverrides := [],
      description := some "Enterprise-grade via AWS infrastructure" } ]

/-- Translation of `getDefaultProviderTemplates`, projected into the declared
return type `SafeProviderConfig[]` of `loadProvidersSafe` (every template has
`hasToken := false`, `isDefault := true`; the auxiliary `description` field is
not part of `SafeProviderConfig`). -/
def getDefaultProviderTemplates : List SafeProviderConfig :=
  DEFAULT_PROVIDERS.map (fun p =>
    { id := "template_" ++ p.id, name := p.name, baseUrl := p.baseUrl,
      defaultModel := p.defaultModel, models := p.models,
      hasToken := false, isDefault := true })

/-- Translation of `toSafeProvider`: the UI projection of a provider.
JS `Boolean(authToken && authToken.length > 0)` is non-emptiness. -/
def toSafeProvider (provider : LlmProviderConfig) : SafeProviderConfig :=
  { id := provider.id, name := provider.name, baseUrl := provider.baseUrl,
    defaultModel := provider.defaultModel, models := provider.models,
    hasToken := provider.authToken != "", isDefault := false }

/-- Translation of `loadProvidersSafe`; `stored` is the parsed content of the
providers file (the result of `readProvidersFile`).  The function never
decrypts: it only tests token presence. -/
def loadProvidersSafe (stored : List LlmProviderConfig) : List SafeProviderConfig :=
  let userProviders := stored.map (fun p =>
    { id := p.id, name := p.name, baseUrl := p.baseUrl,
      defaultModel := p.defaultModel, models := p.models,
      hasToken := p.authToken != "", isDefault := false : SafeProviderConfig })
  let defaultTemplates := getDefaultProviderTemplates
  let userBaseUrls := userProviders.map (fun p => p.baseUrl)
  let uniqueTemplates := defaultTemplates.filter (fun t => !(userBaseUrls.contains t.baseUrl))
  userProviders ++ uniqueTemplates

/-- A provider with its secret blanked; two stored lists "differ only in
token values" when their images under `eraseToken` agree. -/
def eraseToken (p : LlmProviderConfig) : LlmProviderConfig :=
  { p with authToken := "" }

/-- Fields other than the token agree when the blanked records agree. -/
theorem eraseToken_fields {p q : LlmProviderConfig} (h : eraseToken p = eraseToken q) :
    p.id = q.id ∧ p.name = q.name ∧ p.baseUrl = q.baseUrl ∧
    p.defaultModel = q.defaultModel ∧ p.models = q.models := by
  cases p; cases q
  simp [eraseToken, LlmProviderConfig.mk.injEq] at h
  simp_all

/-- C2: the safe projection carries only `hasToken` (true exactly for a
non-empty stored token); every element of `loadProvidersSafe` is either such a
projection of a stored provider or a token-free template; and two stored lists
that differ only in their (non-empty) token values yield identical safe
projections. -/
theorem loadProvidersSafe_no_secret (stored stored' : List LlmProviderConfig)
    (hdiff : List.Forall₂ (fun p q =>
      eraseToken p = eraseToken q ∧ p.authToken ≠ "" ∧ q.authToken ≠ "") stored stored') :
    (∀ p : LlmProviderConfig, (toSafeProvider p).hasToken = (p.authToken != "")) ∧
    (∀ sp ∈ loadProvidersSafe stored,
      (∃ p ∈ stored, sp = toSafeProvider p ∧ sp.hasToken = (p.authToken != "")) ∨
      sp.hasToken = false) ∧
    loadProvidersSafe stored = loadProvidersSafe stored' := by
  refine ⟨fun _ => rfl, ?_, ?_⟩
  · intro sp hsp
    simp only [loadProvidersSafe, List.mem_append] at hsp
    rcases hsp with hmem | hmem
    · rcases List.mem_map.mp hmem with ⟨p, hp, rfl⟩
      exact Or.inl ⟨p, hp, rfl, rfl⟩
    · refine Or.inr ?_
      have := List.mem_of_mem_filter hmem
      simp only [getDefaultProviderTemplates] at this
      rcases List.mem_map.mp this with ⟨t, _, rfl⟩
      rfl
  · have hmap : stored.map (fun p =>
        ({ id := p.id, name := p.name, baseUrl := p.baseUrl,
           defaultModel := p.defaultModel, models := p.models,
           hasToken := p.authToken != "", isDefault := false : SafeProviderConfig })) =
      stored'.map (fun p =>
        ({ id := p.id, name := p.name, baseUrl := p.baseUrl,
           defaultModel := p.defaultModel, models := p.models,
           hasToken := p.authToken != "", isDefault := false : SafeProviderConfig })) := by
      induction hdiff with
      | nil => rfl
      | cons hpq _ ih =>
        rcases hpq with ⟨hfields, hp, hq⟩
        rcases eraseToken_fields hfields with ⟨h1, h2, h3, h4, h5⟩
        simp only [List.map_cons, ih, List.cons.injEq, and_true]
        simp only [SafeProviderConfig.mk.injEq, h1, h2, h3, h4, h5, and_true, true_and]
        rw [Bool.eq_iff_iff]
        simp [bne_iff_ne, hp, hq]
    simp only [loadProvidersSafe, hmap]

/-- Witness for C2 on two concrete one-provider stores with different
non-empty secrets. -/
theorem loadProvidersSafe_no_secret_witness :
    loadProvidersSafe [⟨"p1", "P", "https://a.example", "sk-one", none, none⟩] =
    loadProvidersSafe [⟨"p1", "P", "https://a.example", "sk-two", none, none⟩] :=
  (loadProvidersSafe_no_secret
    [⟨"p1", "P", "https://a.example", "sk-one", none, none⟩]
    [⟨"p1", "P", "https://a.example", "sk-two", none, none⟩]
    (List.Forall₂.cons (by refine ⟨rfl, ?_, ?_⟩ <;> decide) List.Forall₂.nil)).2.2

/-! ## Base64 (model of `Buffer.toString("base64")` / `Buffer.from(s, "base64")`) -/

/-- The standard base64 alphabet. -/
def b64Alphabet : List Char :=
  "ABCDEFGHIJKLMNOPQRSTUVWXYZabcdefghijklmnopqrstuvwxyz0123456789+/".data

/-- Character for a sextet value. -/
def b64Char (n : Nat) : Char := b64Alphabet.getD n 'A'

/-- Sextet value of a character, `none` for non-alphabet characters
(padding and junk are skipped by the forgiving decoder, as in Node). -/
def b64Index (c : Char) : Option Nat :=
  let i := b64Alphabet.indexOf c
  if i < 64 then some i else none

/-- Base64-encode a byte list (with padding), three bytes per four chars. -/
def b64EncodeBytes : List Nat → List Char
  | [] => []
  | [a] => [b64Char (a / 4), b64Char (a % 4 * 16), '=', '=']
  | [a, b] => [b64Char (a / 4), b64Char (a % 4 * 16 + b / 16), b64Char (b % 16 * 4), '=']
  | a :: b :: c :: rest =>
    b64Char (a / 4) :: b64Char (a % 4 * 16 + b / 16) ::
      b64Char (b % 16 * 4 + c / 64) :: b64Char (c % 64) :: b64EncodeBytes rest

/-- Reassemble bytes from a list of sextets (forgiving, like Node). -/
def sextetsToBytes : List Nat → List Nat
  | a :: b :: c :: d :: rest =>
    (a * 4 + b / 16) :: (b % 16 * 16 + c / 4) :: (c % 4 * 64 + d) :: sextetsToBytes rest
  | [a, b, c] => [a * 4 + b / 16, b % 16 * 16 + c / 4]
  | [a, b] => [a * 4 + b / 16]
  | _ => []

/-- Base64-decode a string to bytes, ignoring non-alphabet characters. -/
def b64Decode (s : String) : List Nat :=
  sextetsToBytes (s.data.filterMap b64Index)

/-- Decoding a sextet character gives back its value. -/
theorem b64Index_b64Char : ∀ n, n < 64 → b64Index (b64Char n) = some n := by decide

/-- Padding characters are skipped by the decoder. -/
theorem b64Index_pad : b64Index '=' = none := by decide

/-- Base64 round-trip on byte lists. -/
theorem b64_roundtrip : ∀ (bs : List Nat), (∀ x ∈ bs, x < 256) →
    sextetsToBytes ((b64EncodeBytes bs).filterMap b64Index) = bs
  | [] => fun _ => rfl
  | [a] => fun h => by
    have ha : a < 256 := h a (by simp)
    have e1 := b64Index_b64Char (a / 4) (by omega)
    have e2 := b64Index_b64Char (a % 4 * 16) (by omega)
    simp only [b64EncodeBytes, List.filterMap_cons, e1, e2, b64Index_pad,
      List.filterMap_nil, sextetsToBytes]
    simp only [List.cons.injEq, and_true]
    omega
  | [a, b] => fun h => by
    have ha : a < 256 := h a (by simp)
    have hb : b < 256 := h b (by simp)
    have e1 := b64Index_b64Char (a / 4) (by omega)
    have e2 := b64Index_b64Char (a % 4 * 16 + b / 16) (by omega)
    have e3 := b64Index_b64Char (b % 16 * 4) (by omega)
    simp only [b64EncodeBytes, List.filterMap_cons, e1, e2, e3, b64Index_pad,
      List.filterMap_nil, sextetsToBytes]
    simp only [List.cons.injEq, and_true]
    constructor <;> omega
  | a :: b :: c :: rest => fun h => by
    have ih := b64_roundtrip rest (fun x hx => h x (by simp [hx]))
    have ha : a < 256 := h a (by simp)
    have hb : b < 256 := h b (by simp)
    have hc : c < 256 := h c (by simp)
    have e1 := b64Index_b64Char (a / 4) (by omega)
    have e2 := b64Index_b64Char (a % 4 * 16 + b / 16) (by omega)
    have e3 := b64Index_b64Char (b % 16 * 4 + c / 64) (by omega)
    have e4 := b64Index_b64Char (c % 64) (by omega)
    simp only [b64EncodeBytes, List.filterMap_cons, e1, e2, e3, e4, sextetsToBytes]
    rw [ih]
    simp only [List.cons.injEq, and_true]
    refine ⟨?_, ?_, ?_⟩ <;> omega

/-! ## Credential vault encryption (`encryptSensitiveData`, `decryptSensitiveData`) -/

/-- Model of Electron `safeStorage`: availability plus the two platform
primitives; `none` models the primitive throwing. -/
structure SafeStorage where
  available : Bool
  encryptString : String → Option (List Nat)
  decryptString : List Nat → Option String

/-- The magic version tag `"ENC:v1:"` for encrypted tokens
(named `ENCRYPTED_TOKEN_` + `PREFIX` in the source). -/
def encryptedTokenTag : String := "ENC:v1:"

/-- Translation of `encryptSensitiveData`: skip already-tagged tokens, fail
loudly when platform encryption is unavailable or the primitive throws,
otherwise store tag + base64 ciphertext. -/
def encryptSensitiveData (st : SafeStorage) (provider : LlmProviderConfig) :
    Except String LlmProviderConfig :=
  if provider.authToken != "" then
    if strStartsWith provider.authToken encryptedTokenTag then
      .ok provider
    else if !st.available then
      .error "Token encryption not available - cannot securely store credentials"
    else
      match st.encryptString provider.authToken with
      | some buf =>
        .ok { provider with authToken := encryptedTokenTag ++ String.mk (b64EncodeBytes buf) }
      | none => .error "Failed to encrypt token - refusing to store plaintext credentials"
  else
    .ok provider

/-- A character of the legacy heuristic class `[A-Za-z0-9+/]`. -/
def legacyBodyChar (c : Char) : Bool :=
  c.isAlpha || c.isDigit || c == '+' || c == '/'

/-- Translation of `isLegacyEncryptedToken`: matches
`[A-Za-z0-9+/]+=*` (a non-empty run of base64 characters followed only by
padding) with length above 100. -/
def isLegacyEncryptedToken (token : String) : Bool :=
  (!(token.data.takeWhile legacyBodyChar).isEmpty &&
    (token.data.dropWhile legacyBodyChar).all (fun c => c == '=')) &&
  decide (token.length > 100)

/-- Translation of `decryptSensitiveData`: dispatch on the version tag,
fail hard on a corrupt tagged token, fall back to the legacy heuristic and
plaintext cases otherwise. -/
def decryptSensitiveData (st : SafeStorage) (provider : LlmProviderConfig) :
    Except String LlmProviderConfig :=
  if provider.authToken != "" then
    if strStartsWith provider.authToken encryptedTokenTag then
      let base64Data := strDrop provider.authToken encryptedTokenTag.length
      match st.decryptString (b64Decode base64Data) with
      | some plain => .ok { provider with authToken := plain }
      | none => .error "Failed to decrypt token - data may be corrupted"
    else if isLegacyEncryptedToken provider.authToken then
      match st.decryptString (b64Decode provider.authToken) with
      | some plain => .ok { provider with authToken := plain }
      | none => .ok provider
    else
      .ok provider
  else
    .ok provider

/-- JS `Array.prototype.map` with exception propagation (first failure wins). -/
def mapProviders (f : LlmProviderConfig → Except String LlmProviderConfig) :
    List LlmProviderConfig → Except String (List LlmProviderConfig)
  | [] => .ok []
  | p :: rest =>
    match f p with
    | .error e => .error e
    | .ok q =>
      match mapProviders f rest with
      | .error e => .error e
      | .ok qs => .ok (q :: qs)

/-- Translation of `readProvidersFile`: missing or invalid file reads as the
empty list; `contents` is the parsed providers file. -/
def readProvidersFile (contents : Option (List LlmProviderConfig)) : List LlmProviderConfig :=
  contents.getD []

/-- Translation of `loadProviders`: read the file and decrypt every entry. -/
def loadProviders (st : SafeStorage) (contents : Option (List LlmProviderConfig)) :
    Except String (List LlmProviderConfig) :=
  mapProviders (decryptSensitiveData st) (readProvidersFile contents)

/-- Boolean success test for `Except`. -/
def exceptIsOk : Except String α → Bool
  | .ok _ => true
  | .error _ => false

/-- String data of an append is the append of the data. -/
theorem strData_append (s t : String) : (s ++ t).data = s.data ++ t.data := rfl

/-- A list is a boolean prefix of itself followed by anything. -/
theorem isPrefixOf_self_append : ∀ (l t : List Char), l.isPrefixOf (l ++ t) = true := by
  intro l t
  induction l with
  | nil => simp [List.isPrefixOf]
  | cons a as ih => simp [List.isPrefixOf, ih]

/-- A concrete platform codec used to instantiate the vault theorems:
encryption is code-point transcription, decryption rejects the empty
buffer and out-of-range bytes. -/
def mockStorage : SafeStorage :=
  { available := true,
    encryptString := fun s => some (s.data.map Char.toNat),
    decryptString := fun bs =>
      if bs.isEmpty then none
      else if bs.all (fun x => decide (x < 55296)) then some (String.mk (bs.map Char.ofNat))
      else none }

/-- C4 (amended): for every non-empty secret that does not itself start with
the version tag, when platform encryption is available and the platform
round-trips the ciphertext, `decrypt (encrypt secret)) = secret`; the stored
form is exactly the tag followed by the base64 ciphertext, and decryption
dispatches on that tag. -/
theorem encrypt_decrypt_roundtrip (st : SafeStorage) (p : LlmProviderConfig) (buf : List Nat)
    (hne : p.authToken ≠ "")
    (hpre : strStartsWith p.authToken encryptedTokenTag = false)
    (hav : st.available = true)
    (henc : st.encryptString p.authToken = some buf)
    (hbytes : ∀ x ∈ buf, x < 256)
    (hdec : st.decryptString buf = some p.authToken) :
    encryptSensitiveData st p =
      .ok { p with authToken := encryptedTokenTag ++ String.mk (b64EncodeBytes buf) } ∧
    strStartsWith (encryptedTokenTag ++ String.mk (b64EncodeBytes buf)) encryptedTokenTag = true ∧
    decryptSensitiveData st
      { p with authToken := encryptedTokenTag ++ String.mk (b64EncodeBytes buf) } = .ok p := by
  have hbne : (p.authToken != "") = true := by simp [bne_iff_ne, hne]
  have htag : strStartsWith (encryptedTokenTag ++ String.mk (b64EncodeBytes buf))
      encryptedTokenTag = true := by
    simp only [strStartsWith, strData_append]
    exact isPrefixOf_self_append _ _
  refine ⟨?_, htag, ?_⟩
  · simp [encryptSensitiveData, hbne, hpre, hav, henc]
  · have hq : ((encryptedTokenTag ++ String.mk (b64EncodeBytes buf)) != "") = true := by
      rw [bne_iff_ne]
      intro hcontra
      have hdata := congrArg String.data hcontra
      simp [strData_append, encryptedTokenTag] at hdata
    have hdrop : strDrop (encryptedTokenTag ++ String.mk (b64EncodeBytes buf))
        encryptedTokenTag.length = String.mk (b64EncodeBytes buf) := by
      simp only [strDrop, strData_append]
      rw [show encryptedTokenTag.length = encryptedTokenTag.data.length from rfl, List.drop_left]
    have hraw : b64Decode (String.mk (b64EncodeBytes buf)) = buf := b64_roundtrip buf hbytes
    simp only [decryptSensitiveData, hq, htag, hdrop, hraw, hdec, if_true]

/-- Witness for C4 at the concrete secret `"sk-abc"` with the mock codec. -/
theorem encrypt_decrypt_roundtrip_witness :
    ("sk-abc" : String) ≠ "" ∧
    strStartsWith "sk-abc" encryptedTokenTag = false ∧
    mockStorage.available = true ∧
    mockStorage.encryptString "sk-abc" = some [115, 107, 45, 97, 98, 99] ∧
    (∀ x ∈ [115, 107, 45, 97, 98, 99], x < 256) ∧
    mockStorage.decryptString [115, 107, 45, 97, 98, 99] = some "sk-abc" ∧
    decryptSensitiveData mockStorage
      { (⟨"p1", "P", "https://a.example", "sk-abc", none, none⟩ : LlmProviderConfig) with
        authToken := encryptedTokenTag ++ String.mk (b64EncodeBytes [115, 107, 45, 97, 98, 99]) } =
      .ok ⟨"p1", "P", "https://a.example", "sk-abc", none, none⟩ :=
  ⟨by decide, by decide, rfl, by decide, by decide, by decide,
    (encrypt_decrypt_roundtrip mockStorage
      ⟨"p1", "P", "https://a.example", "sk-abc", none, none⟩ [115, 107, 45, 97, 98, 99]
      (by decide) (by decide) rfl (by decide) (by decide) (by decide)).2.2⟩

/-- C4 counterexample: the claim as stated fails for the non-empty secret
`"ENC:v1:!"`, which already carries the version tag: with a working platform
codec, encryption leaves it unchanged and decryption then fails instead of
returning the original secret. -/
theorem encrypt_roundtrip_counterexample :
    mockStorage.available = true ∧
    ("ENC:v1:!" != "") = true ∧
    mockStorage.decryptString ((mockStorage.encryptString "ENC:v1:!").getD []) =
      some "ENC:v1:!" ∧
    encryptSensitiveData mockStorage ⟨"p1", "P", "https://a.example", "ENC:v1:!", none, none⟩ =
      .ok ⟨"p1", "P", "https://a.example", "ENC:v1:!", none, none⟩ ∧
    decryptSensitiveData mockStorage ⟨"p1", "P", "https://a.example", "ENC:v1:!", none, none⟩ =
      .error "Failed to decrypt token - data may be corrupted" :=
  ⟨rfl, by decide, by decide, rfl, rfl⟩

/-- C8: a stored token bearing the version tag whose platform decryption
fails makes `decryptSensitiveData` raise the corruption error (never keeping
the corrupt ciphertext as a plaintext token), and any provider load through
`loadProviders` containing that provider fails. -/
theorem decrypt_corrupt_fatal (st : SafeStorage) (p : LlmProviderConfig)
    (htag : strStartsWith p.authToken encryptedTokenTag = true)
    (hfail : st.decryptString (b64Decode (strDrop p.authToken encryptedTokenTag.length)) = none) :
    decryptSensitiveData st p = .error "Failed to decrypt token - data may be corrupted" ∧
    ∀ pre post : List LlmProviderConfig,
      exceptIsOk (loadProviders st (some (pre ++ p :: post))) = false := by
  have hne : (p.authToken != "") = true := by
    rw [bne_iff_ne]
    intro hcontra
    rw [hcontra] at htag
    exact absurd htag (by decide)
  have herr : decryptSensitiveData st p =
      .error "Failed to decrypt token - data may be corrupted" := by
    simp only [decryptSensitiveData, hne, htag, hfail, if_true]
  refine ⟨herr, ?_⟩
  intro pre post
  induction pre with
  | nil => simp [loadProviders, readProvidersFile, mapProviders, herr, exceptIsOk]
  | cons q qs ih =>
    simp only [loadProviders, readProvidersFile, Option.getD_some] at ih ⊢
    simp only [List.cons_append, mapProviders]
    cases hq : decryptSensitiveData st q with
    | error e => rfl
    | ok r =>
      cases hrest : mapProviders (decryptSensitiveData st) (qs ++ p :: post) with
      | error e => rfl
      | ok l =>
        rw [hrest] at ih
        exact absurd ih (by simp [exceptIsOk])

/-- Witness for C8 at a concrete two-provider store whose second provider
carries a corrupt tagged token. -/
theorem decrypt_corrupt_fatal_witness :
    strStartsWith "ENC:v1:****" encryptedTokenTag = true ∧
    mockStorage.decryptString (b64Decode (strDrop "ENC:v1:****" encryptedTokenTag.length)) =
      none ∧
    exceptIsOk (loadProviders mockStorage
      (some [⟨"p0", "Q", "https://b.example", "", none, none⟩,
             ⟨"p1", "P", "https://a.example", "ENC:v1:****", none, none⟩])) = false :=
  ⟨by decide, by decide,
    (decrypt_corrupt_fatal mockStorage
      ⟨"p1", "P", "https://a.example", "ENC:v1:****", none, none⟩
      (by decide) (by decide)).2
      [⟨"p0", "Q", "https://b.example", "", none, none⟩] []⟩

/-! ## Atomic persistence (`saveProvidersAtomic`, `saveProviderFromPayload`)

The filesystem is explicit state: the providers file holds a parsed provider
list (JSON serialization is modelled as the identity on structured values)
and temp files carry their mode (384 = `0o600`).  Each `fs` primitive either
fully succeeds or throws, as selected by a `WriteFaults` oracle. -/

/-- A temporary file on disk. -/
structure TempFile where
  name : String
  content : List LlmProviderConfig
  mode : Nat
deriving DecidableEq, Repr

/-- The durable state touched by the provider save path. -/
structure ProvidersFS where
  providersFile : Option (List LlmProviderConfig)
  tempFiles : List TempFile
deriving DecidableEq, Repr

/-- Fault oracle for the four `fs` calls of `saveProvidersAtomic`. -/
structure WriteFaults where
  writeTempOk : Bool
  renameOk : Bool
  writeDirectOk : Bool
  unlinkOk : Bool
deriving DecidableEq, Repr

/-- Translation of `saveProvidersAtomic`: write a uniquely-named owner-only
temp file, rename it into place, fall back to a direct overwrite when rename
fails (Windows), and clean the temp file up on all paths, ignoring cleanup
errors; a write failure rethrows after cleanup. -/
def saveProvidersAtomic (f : WriteFaults) (tempName : String)
    (providers : List LlmProviderConfig) (fs : ProvidersFS) :
    Except String Unit × ProvidersFS :=
  if !f.writeTempOk then
    (.error "EIO: temp write failed", fs)
  else
    let fs1 : ProvidersFS := { fs with tempFiles := fs.tempFiles ++ [⟨tempName, providers, 384⟩] }
    if f.renameOk then
      (.ok (), { providersFile := some providers,
                 tempFiles := fs1.tempFiles.filter (fun t => t.name != tempName) })
    else if f.writeDirectOk then
      let fs2 := { fs1 with providersFile := some providers }
      (.ok (),
        if f.unlinkOk then
          { fs2 with tempFiles := fs2.tempFiles.filter (fun t => t.name != tempName) }
        else fs2)
    else
      (.error "EIO: providers write failed",
        if f.unlinkOk then
          { fs1 with tempFiles := fs1.tempFiles.filter (fun t => t.name != tempName) }
        else fs1)

/-- A character of the model-name class: letters, digits, dot, underscore,
slash or hyphen (the `MODEL_NAME_PATTERN` class). -/
def modelNameChar (c : Char) : Bool :=
  c.isAlpha || c.isDigit || c == '.' || c == '_' || c == '/' || c == '-'

/-- One model value of `validateModelConfig`: empty strings only warn,
over-long names and names outside the character class are invalid. -/
def modelValueOk (v : Option String) : Bool :=
  match v with
  | none => true
  | some s =>
    if s == "" then true
    else if s.length > 200 then false
    else s.data.all modelNameChar

/-- Translation of `validateModelConfig` (its `valid` flag; warnings are
log-only).  The payload type already restricts keys to the three known ones. -/
def validateModelConfig (models : Option Models) : Bool :=
  match models with
  | none => true
  | some ms => modelValueOk ms.opus && modelValueOk ms.sonnet && modelValueOk ms.haiku

/-- Translation of `resolveAuthToken`: a non-empty payload token wins,
otherwise the existing token (or empty). -/
def resolveAuthToken (newToken : Option String) (existingToken : Option String) : String :=
  match newToken with
  | some t => if t != "" then t else existingToken.getD ""
  | none => existingToken.getD ""

/-- Translation of `saveProviderFromPayload`: validate the URL (when a base
URL is present) and the models object, re-read and decrypt the store, merge
the payload (preserving the existing secret when omitted), encrypt every
entry and write atomically; returns only the safe projection.  `parseUrl`
models `new URL`, `newId` the fresh `randomUUID`. -/
def saveProviderFromPayload (allowLocal : Bool) (parseUrl : String → Option ParsedUrl)
    (st : SafeStorage) (f : WriteFaults) (tempName newId : String)
    (payload : ProviderSavePayload) (fs : ProvidersFS) :
    Except String SafeProviderConfig × ProvidersFS :=
  if payload.baseUrl != "" && !(validateProviderUrl allowLocal (parseUrl payload.baseUrl)).valid then
    (.error ("Invalid provider URL: " ++
      (validateProviderUrl allowLocal (parseUrl payload.baseUrl)).error.getD ""), fs)
  else if !(validateModelConfig payload.models) then
    (.error "Invalid models configuration: must be \x7bopus?: string, sonnet?: string, haiku?: string\x7d", fs)
  else
    match loadProviders st fs.providersFile with
    | .error e => (.error e, fs)
    | .ok providers =>
      let existingIdx : Option Nat :=
        match payload.id with
        | some i => if i != "" then providers.findIdx? (fun p => p.id == i) else none
        | none => none
      let existingProvider := existingIdx.bind (fun idx => providers[idx]?)
      let providerToSave : LlmProviderConfig :=
        { id := (match payload.id with
                 | some i => if i != "" then i else newId
                 | none => newId),
          name := payload.name, baseUrl := payload.baseUrl,
          authToken := resolveAuthToken payload.authToken
            (existingProvider.map (fun p => p.authToken)),
          defaultModel := payload.defaultModel, models := payload.models }
      let newList :=
        match existingIdx with
        | some idx => providers.set idx providerToSave
        | none => providers ++ [providerToSave]
      match mapProviders (encryptSensitiveData st) newList with
      | .error e => (.error e, fs)
      | .ok encryptedProviders =>
        let saved := saveProvidersAtomic f tempName encryptedProviders fs
        (match saved.1 with
         | .ok _ => .ok (toSafeProvider providerToSave)
         | .error e => .error e,
         saved.2)

/-- C9: a failed save leaves the durable provider file unchanged; with a
working `unlink`, no temp file survives any path; the file only ever changes
to the complete newly-written list (success); and when rename, fallback write
and cleanup all fail, the surviving temp file is the owner-only (mode 384)
uniquely-named one written before any content reached the durable file. -/
theorem saveProviderFromPayload_atomic (allowLocal : Bool)
    (parseUrl : String → Option ParsedUrl) (st : SafeStorage) (f : WriteFaults)
    (tempName newId : String) (payload : ProviderSavePayload) (fs : ProvidersFS)
    (hfresh : ∀ t ∈ fs.tempFiles, t.name ≠ tempName) :
    (exceptIsOk (saveProviderFromPayload allowLocal parseUrl st f tempName newId payload fs).1
        = false →
      (saveProviderFromPayload allowLocal parseUrl st f tempName newId payload fs).2.providersFile
        = fs.providersFile) ∧
    (f.unlinkOk = true →
      (saveProviderFromPayload allowLocal parseUrl st f tempName newId payload fs).2.tempFiles
        = fs.tempFiles) ∧
    ((saveProviderFromPayload allowLocal parseUrl st f tempName newId payload fs).2.providersFile
        = fs.providersFile ∨
      ∃ ps, (saveProviderFromPayload allowLocal parseUrl st f tempName newId payload
          fs).2.providersFile = some ps ∧
        exceptIsOk (saveProviderFromPayload allowLocal parseUrl st f tempName newId
          payload fs).1 = true) ∧
    (∀ ps : List LlmProviderConfig, f.writeTempOk = true → f.renameOk = false →
      f.writeDirectOk = false → f.unlinkOk = false →
      (saveProvidersAtomic f tempName ps fs).2.tempFiles
        = fs.tempFiles ++ [⟨tempName, ps, 384⟩]) := by
  have hfilter : ∀ ps : List LlmProviderConfig,
      (fs.tempFiles ++ [(⟨tempName, ps, 384⟩ : TempFile)]).filter
        (fun t => t.name != tempName) = fs.tempFiles := by
    intro ps
    rw [List.filter_append]
    have h1 : fs.tempFiles.filter (fun t => t.name != tempName) = fs.tempFiles :=
      List.filter_eq_self.mpr (fun t ht => by simp [bne_iff_ne, hfresh t ht])
    simp [h1]
  have hA : ∀ ps : List LlmProviderConfig,
      (exceptIsOk (saveProvidersAtomic f tempName ps fs).1 = false →
        (saveProvidersAtomic f tempName ps fs).2.providersFile = fs.providersFile) ∧
      (f.unlinkOk = true →
        (saveProvidersAtomic f tempName ps fs).2.tempFiles = fs.tempFiles) ∧
      ((saveProvidersAtomic f tempName ps fs).2.providersFile = fs.providersFile ∨
        ((saveProvidersAtomic f tempName ps fs).2.providersFile = some ps ∧
          exceptIsOk (saveProvidersAtomic f tempName ps fs).1 = true)) ∧
      (f.writeTempOk = true → f.renameOk = false → f.writeDirectOk = false →
        f.unlinkOk = false →
        (saveProvidersAtomic f tempName ps fs).2.tempFiles
          = fs.tempFiles ++ [⟨tempName, ps, 384⟩]) := by
    intro ps
    obtain ⟨wt, rn, wd, ul⟩ := f
    cases wt <;> cases rn <;> cases wd <;> cases ul <;>
      simp_all [saveProvidersAtomic, exceptIsOk, hfilter]
  have key :
      (exceptIsOk (saveProviderFromPayload allowLocal parseUrl st f tempName newId payload
          fs).1 = false →
        (saveProviderFromPayload allowLocal parseUrl st f tempName newId payload
          fs).2.providersFile = fs.providersFile) ∧
      (f.unlinkOk = true →
        (saveProviderFromPayload allowLocal parseUrl st f tempName newId payload
          fs).2.tempFiles = fs.tempFiles) ∧
      ((saveProviderFromPayload allowLocal parseUrl st f tempName newId payload
          fs).2.providersFile = fs.providersFile ∨
        ∃ ps, (saveProviderFromPayload allowLocal parseUrl st f tempName newId payload
            fs).2.providersFile = some ps ∧
          exceptIsOk (saveProviderFromPayload allowLocal parseUrl st f tempName newId
            payload fs).1 = true) := by
    simp only [saveProviderFromPayload]
    split
    · exact ⟨fun _ => rfl, fun _ => rfl, Or.inl rfl⟩
    · split
      · exact ⟨fun _ => rfl, fun _ => rfl, Or.inl rfl⟩
      · split
        · exact ⟨fun _ => rfl, fun _ => rfl, Or.inl rfl⟩
        · split
          · exact ⟨fun _ => rfl, fun _ => rfl, Or.inl rfl⟩
          · rename_i encryptedProviders heq2
            cases hsv : (saveProvidersAtomic f tempName encryptedProviders fs).1 with
            | ok u =>
              simp only [hsv]
              refine ⟨?_, (hA encryptedProviders).2.1, ?_⟩
              · intro h
                simp [exceptIsOk] at h
              · rcases (hA encryptedProviders).2.2.1 with hsame | ⟨hsome, _⟩
                · exact Or.inl hsame
                · exact Or.inr ⟨encryptedProviders, hsome, by simp [exceptIsOk]⟩
            | error e =>
              simp only [hsv]
              have herr : exceptIsOk (saveProvidersAtomic f tempName
                  encryptedProviders fs).1 = false := by
                rw [hsv]
                rfl
              exact ⟨fun _ => (hA encryptedProviders).1 herr,
                (hA encryptedProviders).2.1,
                Or.inl ((hA encryptedProviders).1 herr)⟩
  exact ⟨key.1, key.2.1, key.2.2, fun ps h1 h2 h3 h4 => (hA ps).2.2.2 h1 h2 h3 h4⟩

/-- Witness for C9: a save whose base URL fails SSRF validation returns an
error and leaves both the provider file and the temp directory untouched. -/
theorem saveProviderFromPayload_atomic_witness :
    (∀ t ∈ (⟨some [], []⟩ : ProvidersFS).tempFiles, t.name ≠ "tmp1") ∧
    (exceptIsOk (saveProviderFromPayload false (fun _ => some ⟨"http:", "localhost"⟩)
        mockStorage ⟨true, true, true, true⟩ "tmp1" "id1"
        ⟨none, "L", "http://localhost:4000", some "sk", none, none⟩
        ⟨some [], []⟩).1 = false) ∧
    (saveProviderFromPayload false (fun _ => some ⟨"http:", "localhost"⟩)
        mockStorage ⟨true, true, true, true⟩ "tmp1" "id1"
        ⟨none, "L", "http://localhost:4000", some "sk", none, none⟩
        ⟨some [], []⟩).2.providersFile = (⟨some [], []⟩ : ProvidersFS).providersFile :=
  ⟨by decide, by decide,
    (saveProviderFromPayload_atomic false (fun _ => some ⟨"http:", "localhost"⟩)
      mockStorage ⟨true, true, true, true⟩ "tmp1" "id1"
      ⟨none, "L", "http://localhost:4000", some "sk", none, none⟩
      ⟨some [], []⟩ (by decide)).1 (by decide)⟩

/-! ## Session store (`session-store.ts`): path admission and session loading -/

/-- Session lifecycle status. -/
inductive SessionStatus
  | idle
  | running
  | completed
  | error
deriving DecidableEq, Repr

/-- Permission mode of a session. -/
inductive PermissionMode
  | secure
  | free
deriving DecidableEq, Repr

/-- A pending permission map entry (the `resolve` continuation and the timer
handle are modelled by the gateway resolution state, below). -/
structure PendingPermission where
  toolUseId : String
  toolName : String
  input : String
  createdAt : Option Int
deriving DecidableEq, Repr

/-- An in-memory session. -/
structure Session where
  id : String
  title : String
  claudeSessionId : Option String
  status : SessionStatus
  cwd : Option String
  allowedTools : Option String
  lastPrompt : Option String
  permissionMode : Option PermissionMode
  pendingPermissions : List (String × PendingPermission)
deriving DecidableEq, Repr

/-- A durable session row as read back from the sessions table. -/
structure SessionRow where
  id : String
  title : String
  claudeSessionId : Option String
  status : SessionStatus
  cwd : Option String
  allowedTools : Option String
  lastPrompt : Option String
  permissionMode : Option PermissionMode
deriving DecidableEq, Repr

/-- An entry of the path-validation cache. -/
structure CacheEntry where
  valid : Bool
  resolved : Option String
  timestamp : Int
deriving DecidableEq, Repr

/-- The path-validation cache (a map keyed by resolved path). -/
abbrev PathCache := List (String × CacheEntry)

/-- Platform environment of the path admission code: `resolveFn` models
`resolve(normalize(p))`, `existsFn` models `existsSync`, `now` is the clock
and `ttlMs` the configured `PATH_CACHE_TTL_MS`. -/
structure PathEnv where
  resolveFn : String → String
  existsFn : String → Bool
  now : Int
  ttlMs : Int

/-- The dangerous shell metacharacter class of `sanitizePath`
(semicolon, ampersand, pipe, backtick, dollar, less-than, greater-than). -/
def dangerousShellChar (c : Char) : Bool :=
  c == ';' || c == '&' || c == '|' || c.toNat == 96 || c == '$' || c == '<' || c == '>'

/-- `Map.set` on the path cache (replace or append). -/
def cacheSet (cache : PathCache) (k : String) (v : CacheEntry) : PathCache :=
  if cache.any (fun e => e.1 == k) then
    cache.map (fun e => if e.1 == k then (k, v) else e)
  else
    cache ++ [(k, v)]

/-- Translation of `SessionStore.sanitizePath`: reject null bytes, traversal
tokens before and after normalization, and shell metacharacters; consult the
TTL cache; otherwise stat the resolved directory and cache the outcome.
Returns the thrown-or-returned result together with the updated cache. -/
def sanitizePath (env : PathEnv) (cache : PathCache) (inputPath : String) :
    Except String String × PathCache :=
  if strContains inputPath "\x00" then
    (.error "Invalid path: null bytes not allowed", cache)
  else if strContains inputPath ".." then
    (.error "Invalid path: path traversal sequences not allowed", cache)
  else if inputPath.data.any dangerousShellChar then
    (.error "Invalid path: contains dangerous shell metacharacters", cache)
  else
    let resolved := env.resolveFn inputPath
    if strContains resolved ".." then
      (.error "Invalid path: path traversal detected after normalization", cache)
    else
      let freshStat : Except String String × PathCache :=
        if !(env.existsFn resolved) then
          (.error ("Invalid path: directory does not exist: " ++ resolved),
            cacheSet cache resolved ⟨false, none, env.now⟩)
        else
          (.ok resolved, cacheSet cache resolved ⟨true, some resolved, env.now⟩)
      match cache.lookup resolved with
      | some cached =>
        if env.now - cached.timestamp < env.ttlMs then
          match cached.resolved with
          | some r =>
            if cached.valid && (r != "") then (.ok r, cache)
            else (.error ("Invalid path: directory does not exist: " ++ resolved), cache)
          | none =>
            (.error ("Invalid path: directory does not exist: " ++ resolved), cache)
        else freshStat
      | none => freshStat

/-- Translation of `SessionStore.loadSessions`: every row is loaded verbatim
with an empty pending map; no path validation happens here (deferred). -/
def loadSessions (rows : List SessionRow) : List Session :=
  rows.map (fun row =>
    { id := row.id, title := row.title, claudeSessionId := row.claudeSessionId,
      status := row.status, cwd := row.cwd, allowedTools := row.allowedTools,
      lastPrompt := row.lastPrompt, permissionMode := row.permissionMode,
      pendingPermissions := [] })

/-- Translation of `SessionStore.validateSessionPath` on a session object:
no (or empty) `cwd` validates trivially; otherwise a sanitization failure
marks the session errored and clears `cwd`. -/
def validateSessionPath (env : PathEnv) (cache : PathCache) (sess : Session) :
    Bool × Session × PathCache :=
  match sess.cwd with
  | none => (true, sess, cache)
  | some c =>
    if c == "" then (true, sess, cache)
    else
      match sanitizePath env cache c with
      | (.ok validated, cache1) => (true, { sess with cwd := some validated }, cache1)
      | (.error _, cache1) =>
        (false, { sess with status := .error, cwd := none }, cache1)

/-- C5: `sanitizePath` throws for every input containing a null byte, a
traversal token (before or after normalization) or a shell metacharacter;
quote characters are not metacharacters, and an input containing a quote that
passes those checks and resolves to an existing (uncached) directory is
returned resolved. -/
theorem sanitizePath_spec (env : PathEnv) (cache : PathCache) (inputPath : String) :
    ((strContains inputPath "\x00" = true ∨ strContains inputPath ".." = true ∨
      inputPath.data.any dangerousShellChar = true ∨
      strContains (env.resolveFn inputPath) ".." = true) →
      exceptIsOk (sanitizePath env cache inputPath).1 = false) ∧
    (dangerousShellChar '\'' = false ∧ dangerousShellChar '"' = false) ∧
    ((inputPath.data.contains '\'' = true ∨ inputPath.data.contains '"' = true) →
      strContains inputPath "\x00" = false → strContains inputPath ".." = false →
      inputPath.data.any dangerousShellChar = false →
      strContains (env.resolveFn inputPath) ".." = false →
      cache.lookup (env.resolveFn inputPath) = none →
      env.existsFn (env.resolveFn inputPath) = true →
      (sanitizePath env cache inputPath).1 = .ok (env.resolveFn inputPath)) := by
  refine ⟨?_, ⟨by decide, by decide⟩, ?_⟩
  · intro hdisj
    simp only [sanitizePath]
    by_cases h0 : strContains inputPath "\x00" = true
    · simp [h0, exceptIsOk]
    · rw [Bool.not_eq_true] at h0
      by_cases h1 : strContains inputPath ".." = true
      · simp [h0, h1, exceptIsOk]
      · rw [Bool.not_eq_true] at h1
        by_cases h2 : inputPath.data.any dangerousShellChar = true
        · simp [h0, h1, h2, exceptIsOk]
        · rw [Bool.not_eq_true] at h2
          by_cases h3 : strContains (env.resolveFn inputPath) ".." = true
          · simp [h0, h1, h2, h3, exceptIsOk]
          · rw [Bool.not_eq_true] at h3
            rcases hdisj with h | h | h | h <;> simp_all
  · intro _ hnull hdots hdang hres hlookup hexists
    simp [sanitizePath, hnull, hdots, hdang, hres, hlookup, hexists]

/-- Witness for C5: a quoted path under a trivial resolver and an
always-existing directory is accepted verbatim. -/
theorem sanitizePath_spec_witness :
    (("/tmp/\"quoted\"" : String).data.contains '"' = true) ∧
    strContains "/tmp/\"quoted\"" "\x00" = false ∧
    strContains "/tmp/\"quoted\"" ".." = false ∧
    ("/tmp/\"quoted\"" : String).data.any dangerousShellChar = false ∧
    (sanitizePath ⟨fun s => s, fun _ => true, 0, 60000⟩ [] "/tmp/\"quoted\"").1 =
      .ok "/tmp/\"quoted\"" :=
  ⟨by decide, by decide, by decide, by decide,
    (sanitizePath_spec ⟨fun s => s, fun _ => true, 0, 60000⟩ [] "/tmp/\"quoted\"").2.2
      (Or.inr (by decide)) (by decide) (by decide) (by decide) (by decide) rfl rfl⟩

/-- C10 counterexample: loading a session whose stored `cwd` no longer exists
does not mark it errored nor clear the field at load time — `loadSessions`
performs no validation at all (it is deferred), contradicting the claim. -/
theorem loadSessions_eager_counterexample :
    (loadSessions [⟨"s1", "T", none, .idle, some "/deleted", none, none, none⟩]).map
      (fun s => (s.status, s.cwd)) = [(SessionStatus.idle, some "/deleted")] ∧
    SessionStatus.idle ≠ SessionStatus.error :=
  ⟨rfl, by decide⟩

/-- C10 (amended): loading from durable storage always succeeds, carrying
every row over verbatim with validation deferred; the subsequent
`validateSessionPath` call on a session whose `cwd` fails sanitization
(e.g. the directory was deleted) returns `false`, marks the session status
`error` and clears `cwd`. -/
theorem loadSessions_deferred_validation (rows : List SessionRow) (env : PathEnv)
    (cache : PathCache) (sess : Session) (c : String)
    (hcwd : sess.cwd = some c) (hne : c ≠ "")
    (hfail : exceptIsOk (sanitizePath env cache c).1 = false) :
    ((loadSessions rows).map (fun s => (s.id, s.status, s.cwd))
      = rows.map (fun r => (r.id, r.status, r.cwd))) ∧
    (validateSessionPath env cache sess).1 = false ∧
    (validateSessionPath env cache sess).2.1.status = SessionStatus.error ∧
    (validateSessionPath env cache sess).2.1.cwd = none := by
  refine ⟨by simp [loadSessions, List.map_map], ?_⟩
  have hbne : (c == "") = false := by simp [beq_iff_eq, hne]
  cases hsp : sanitizePath env cache c with
  | mk r cache1 =>
    cases r with
    | ok v =>
      rw [hsp] at hfail
      exact absurd hfail (by simp [exceptIsOk])
    | error e =>
      simp [validateSessionPath, hcwd, hbne, hsp]

/-- Witness for C10 on a concrete deleted directory. -/
theorem loadSessions_deferred_validation_witness :
    exceptIsOk (sanitizePath ⟨fun s => s, fun _ => false, 0, 60000⟩ [] "/gone").1 = false ∧
    (validateSessionPath ⟨fun s => s, fun _ => false, 0, 60000⟩ []
      ⟨"s1", "T", none, .idle, some "/gone", none, none, none, []⟩).1 = false ∧
    (validateSessionPath ⟨fun s => s, fun _ => false, 0, 60000⟩ []
      ⟨"s1", "T", none, .idle, some "/gone", none, none, none, []⟩).2.1.status
        = SessionStatus.error :=
  ⟨by decide, ((loadSessions_deferred_validation [] ⟨fun s => s, fun _ => false, 0, 60000⟩ []
      ⟨"s1", "T", none, .idle, some "/gone", none, none, none, []⟩ "/gone"
      rfl (by decide) (by decide)).2.1),
    ((loadSessions_deferred_validation [] ⟨fun s => s, fun _ => false, 0, 60000⟩ []
      ⟨"s1", "T", none, .idle, some "/gone", none, none, none, []⟩ "/gone"
      rfl (by decide) (by decide)).2.2.1)⟩

/-! ## Permission gateway (`runner.ts`: `createCanUseTool` and friends) -/

/-- Permission outcome behavior. -/
inductive Behavior
  | allow
  | deny
deriving DecidableEq, Repr

/-- The SDK `PermissionResult` shape as used by the gateway. -/
structure PermissionResult where
  behavior : Behavior
  updatedInput : Option String
  message : Option String
deriving DecidableEq, Repr

/-- Configuration for pending-permissions management. -/
structure PendingPermissionsConfig where
  maxPendingPermissions : Nat
  permissionTimeoutMs : Int
  cleanupIntervalMs : Int
  staleThresholdMs : Int
deriving DecidableEq, Repr

/-- The `DEFAULT_PENDING_PERMISSIONS_CONFIG` constant. -/
def DEFAULT_PENDING_PERMISSIONS_CONFIG : PendingPermissionsConfig :=
  ⟨100, 5 * 60 * 1000, 60 * 1000, 10 * 60 * 1000⟩

/-- Model of JS `String.prototype.trim`. -/
def strTrim (s : String) : String :=
  String.mk (((s.data.dropWhile Char.isWhitespace).reverse.dropWhile Char.isWhitespace).reverse)

/-- Translation of `parseAllowedTools`: `none` means no restriction; entries
are trimmed, de-blanked and lowercased. -/
def parseAllowedTools (allowedTools : Option String) : Option (List String) :=
  match allowedTools with
  | none => none
  | some s =>
    if strTrim s == "" then none
    else
      some ((((s.splitOn ",").map strTrim).filter (fun t => t != "")).map strToLower)

/-- Translation of `isToolAllowed`: `AskUserQuestion` always passes the
allow-list; no list means every tool passes; otherwise lowercase membership. -/
def isToolAllowed (toolName : String) (allowedTools : Option (List String)) : Bool :=
  if toolName == "AskUserQuestion" then true
  else
    match allowedTools with
    | none => true
    | some l => l.contains (strToLower toolName)

/-- Decision of one `canUseTool` invocation up to (and including) pending
registration. -/
inductive ToolDecision
  | allowImmediate (updatedInput : String)
  | denyRestricted (message : String)
  | denyCapacity (message : String)
  | registerPending (toolUseId : String)
deriving DecidableEq, Repr

/-- The staleness test of the gateway sweeps (entries lacking a numeric
`createdAt` are never considered stale, as in the defensive type guard). -/
def isStaleEntry (cfg : PendingPermissionsConfig) (now : Int) (e : PendingPermission) : Bool :=
  match e.createdAt with
  | some t => decide (t < now - cfg.staleThresholdMs)
  | none => false

/-- Removal of stale entries from a pending map (the cap-triggered sweep and
the periodic sweep perform exactly this). -/
def sweepStale (cfg : PendingPermissionsConfig) (now : Int)
    (pending : List (String × PendingPermission)) : List (String × PendingPermission) :=
  pending.filter (fun e => !(isStaleEntry cfg now e.2))

/-- Translation of the decision phase of the function returned by
`createCanUseTool`: free-mode auto-approval (which excludes
`AskUserQuestion`), the allow-list check, the capacity cap with its stale
sweep, and registration of a new pending entry awaiting the UI. -/
def canUseToolStep (cfg : PendingPermissionsConfig) (mode : PermissionMode)
    (allowedTools : Option (List String)) (now : Int) (newToolUseId : String)
    (toolName input : String) (pending : List (String × PendingPermission)) :
    ToolDecision × List (String × PendingPermission) :=
  let isAsk := toolName == "AskUserQuestion"
  if !isAsk && (mode == PermissionMode.free) then
    if !(isToolAllowed toolName allowedTools) then
      (.denyRestricted ("Tool " ++ toolName ++ " is not allowed by allowedTools restriction"),
        pending)
    else
      (.allowImmediate input, pending)
  else if !(isToolAllowed toolName allowedTools) then
    (.denyRestricted ("Tool " ++ toolName ++ " is not allowed by allowedTools restriction"),
      pending)
  else
    let pending1 :=
      if pending.length ≥ cfg.maxPendingPermissions then sweepStale cfg now pending
      else pending
    if pending1.length ≥ cfg.maxPendingPermissions then
      (.denyCapacity ("Too many pending permission requests (max: "
          ++ toString cfg.maxPendingPermissions ++ ")"),
        pending1)
    else
      (.registerPending newToolUseId,
        pending1 ++ [(newToolUseId, ⟨newToolUseId, toolName, input, some now⟩)])

/-- State of one parked permission request: the session pending map, the
request timer, and what (if anything) was delivered to the awaiting engine
(the single-shot promise). -/
structure ResolutionState where
  pending : List (String × PendingPermission)
  timerCleared : Bool
  delivered : Option PermissionResult
deriving DecidableEq, Repr

/-- Translation of `cleanupEntry`: clear the timer and delete the map entry. -/
def cleanupEntry (toolUseId : String) (st : ResolutionState) : ResolutionState :=
  { st with timerCleared := true,
            pending := st.pending.filter (fun e => e.1 != toolUseId) }

/-- Single-shot promise delivery: a second resolution is a no-op. -/
def promiseResolve (result : PermissionResult) (st : ResolutionState) : ResolutionState :=
  if st.delivered.isSome then st else { st with delivered := some result }

/-- A terminal resolution: every exit path of the parked request runs
`cleanupEntry` and then resolves the promise with its result. -/
def resolveEntry (toolUseId : String) (result : PermissionResult)
    (st : ResolutionState) : ResolutionState :=
  promiseResolve result (cleanupEntry toolUseId st)

/-- The timeout resolution result. -/
def timeoutResult : PermissionResult :=
  ⟨.deny, none, some "Permission request timed out after 5 minutes"⟩

/-- The abort resolution result. -/
def abortResult : PermissionResult :=
  ⟨.deny, none, some "Session aborted"⟩

/-- The timeout exit path (`setTimeout` callback). -/
def resolveTimeout (toolUseId : String) (st : ResolutionState) : ResolutionState :=
  resolveEntry toolUseId timeoutResult st

/-- The abort exit path (`abortHandler`). -/
def resolveAbort (toolUseId : String) (st : ResolutionState) : ResolutionState :=
  resolveEntry toolUseId abortResult st

/-- Deleting a key from an association list makes its lookup fail. -/
theorem lookup_filter_ne_none (k : String) (l : List (String × PendingPermission)) :
    (l.filter (fun e => e.1 != k)).lookup k = none := by
  induction l with
  | nil => rfl
  | cons e t ih =>
    obtain ⟨k1, v⟩ := e
    by_cases h : k1 = k
    · subst h
      simp [List.filter_cons, ih]
    · have hk : (k == k1) = false := by
        simp only [beq_eq_false_iff_ne, ne_eq]
        exact fun hh => h hh.symm
      simp [List.filter_cons, bne_iff_ne, h, List.lookup, hk, ih]

/-- C6: every terminal resolution (UI allow or deny, timeout, abort) is the
same cleanup action — the timer is cleared and the entry removed from the
pending map — followed by a single-shot delivery; resolving a second time
(with any result) changes nothing: the state is fixed and nothing more is
delivered to the original caller. -/
theorem resolution_idempotent (toolUseId : String) (r r2 : PermissionResult)
    (st : ResolutionState) :
    resolveTimeout toolUseId st = resolveEntry toolUseId timeoutResult st ∧
    resolveAbort toolUseId st = resolveEntry toolUseId abortResult st ∧
    (resolveEntry toolUseId r st).timerCleared = true ∧
    (resolveEntry toolUseId r st).pending.lookup toolUseId = none ∧
    (st.delivered = none → (resolveEntry toolUseId r st).delivered = some r) ∧
    resolveEntry toolUseId r2 (resolveEntry toolUseId r st) = resolveEntry toolUseId r st := by
  refine ⟨rfl, rfl, ?_, ?_, ?_, ?_⟩
  · cases hd : st.delivered <;> simp [resolveEntry, cleanupEntry, promiseResolve, hd]
  · cases hd : st.delivered <;>
      simp [resolveEntry, cleanupEntry, promiseResolve, hd, lookup_filter_ne_none]
  · intro hnone
    simp [resolveEntry, cleanupEntry, promiseResolve, hnone]
  · cases hd : st.delivered <;>
      simp [resolveEntry, cleanupEntry, promiseResolve, hd, List.filter_filter]

/-- Witness for C6 on a concrete one-entry pending state resolved by timeout
and then (redundantly) by abort. -/
theorem resolution_idempotent_witness :
    ((⟨[("u1", ⟨"u1", "Bash", "x", some 0⟩)], false, none⟩ : ResolutionState).delivered
      = none) ∧
    (resolveEntry "u1" timeoutResult
      ⟨[("u1", ⟨"u1", "Bash", "x", some 0⟩)], false, none⟩).delivered = some timeoutResult ∧
    resolveEntry "u1" abortResult (resolveEntry "u1" timeoutResult
      ⟨[("u1", ⟨"u1", "Bash", "x", some 0⟩)], false, none⟩) =
      resolveEntry "u1" timeoutResult ⟨[("u1", ⟨"u1", "Bash", "x", some 0⟩)], false, none⟩ :=
  ⟨rfl,
    (resolution_idempotent "u1" timeoutResult abortResult
      ⟨[("u1", ⟨"u1", "Bash", "x", some 0⟩)], false, none⟩).2.2.2.2.1 rfl,
    (resolution_idempotent "u1" timeoutResult abortResult
      ⟨[("u1", ⟨"u1", "Bash", "x", some 0⟩)], false, none⟩).2.2.2.2.2⟩

/-- C3 counterexample: for `AskUserQuestion` the gateway does *not* approve
immediately — in free mode (and in secure mode) it registers a pending entry
and awaits the UI, contradicting the claim at this concrete input. -/
theorem askUserQuestion_immediate_counterexample :
    (canUseToolStep DEFAULT_PENDING_PERMISSIONS_CONFIG .free none 0 "u1" "AskUserQuestion"
      "inp" []).1 = ToolDecision.registerPending "u1" ∧
    (canUseToolStep DEFAULT_PENDING_PERMISSIONS_CONFIG .free none 0 "u1" "AskUserQuestion"
      "inp" []).2.length = 1 ∧
    (canUseToolStep DEFAULT_PENDING_PERMISSIONS_CONFIG .secure none 0 "u1" "AskUserQuestion"
      "inp" []).1 = ToolDecision.registerPending "u1" ∧
    ToolDecision.registerPending "u1" ≠ ToolDecision.allowImmediate "inp" :=
  ⟨rfl, rfl, rfl, by decide⟩

/-- C3 (amended): `AskUserQuestion` always passes the allow-list check
(`isToolAllowed`) and is never denied by policy, but instead of being
approved immediately it is — in both permission modes — parked as a pending
entry awaiting a UI decision whenever capacity permits. -/
theorem askUserQuestion_parked (cfg : PendingPermissionsConfig) (mode : PermissionMode)
    (allowedTools : Option (List String)) (now : Int) (uid input : String)
    (pending : List (String × PendingPermission)) :
    isToolAllowed "AskUserQuestion" allowedTools = true ∧
    (∀ m, (canUseToolStep cfg mode allowedTools now uid "AskUserQuestion" input pending).1 ≠
      ToolDecision.denyRestricted m) ∧
    (∀ s, (canUseToolStep cfg mode allowedTools now uid "AskUserQuestion" input pending).1 ≠
      ToolDecision.allowImmediate s) ∧
    ((if pending.length ≥ cfg.maxPendingPermissions then sweepStale cfg now pending
        else pending).length < cfg.maxPendingPermissions →
      (canUseToolStep cfg mode allowedTools now uid "AskUserQuestion" input pending).1 =
        ToolDecision.registerPending uid) := by
  have hallowed : isToolAllowed "AskUserQuestion" allowedTools = true := by
    simp [isToolAllowed]
  have hbody : canUseToolStep cfg mode allowedTools now uid "AskUserQuestion" input pending =
      (let pending1 :=
        if pending.length ≥ cfg.maxPendingPermissions then sweepStale cfg now pending
        else pending
      if pending1.length ≥ cfg.maxPendingPermissions then
        (.denyCapacity ("Too many pending permission requests (max: "
            ++ toString cfg.maxPendingPermissions ++ ")"),
          pending1)
      else
        (.registerPending uid,
          pending1 ++ [(uid, ⟨uid, "AskUserQuestion", input, some now⟩)])) := by
    simp [canUseToolStep, hallowed]
  refine ⟨hallowed, ?_, ?_, ?_⟩ <;> rw [hbody] <;> simp only []
  · by_cases hcap : (if pending.length ≥ cfg.maxPendingPermissions then
        sweepStale cfg now pending else pending).length ≥ cfg.maxPendingPermissions <;>
      simp [hcap]
  · by_cases hcap : (if pending.length ≥ cfg.maxPendingPermissions then
        sweepStale cfg now pending else pending).length ≥ cfg.maxPendingPermissions <;>
      simp [hcap]
  · intro hroom
    have hcap : ¬ (if pending.length ≥ cfg.maxPendingPermissions then
        sweepStale cfg now pending else pending).length ≥ cfg.maxPendingPermissions := by
      omega
    simp [hcap]

/-- Witness for C3 on an empty pending map in free mode. -/
theorem askUserQuestion_parked_witness :
    ((if ([] : List (String × PendingPermission)).length ≥
        DEFAULT_PENDING_PERMISSIONS_CONFIG.maxPendingPermissions then
        sweepStale DEFAULT_PENDING_PERMISSIONS_CONFIG 0 [] else []).length <
      DEFAULT_PENDING_PERMISSIONS_CONFIG.maxPendingPermissions) ∧
    (canUseToolStep DEFAULT_PENDING_PERMISSIONS_CONFIG .free none 0 "u2" "AskUserQuestion"
      "q" []).1 = ToolDecision.registerPending "u2" :=
  ⟨by decide,
    (askUserQuestion_parked DEFAULT_PENDING_PERMISSIONS_CONFIG .free none 0 "u2" "q"
      []).2.2.2 (by decide)⟩

/-- C7: in secure mode, an allowed tool arriving when the pending count is at
or above the cap first triggers a stale-entry sweep; if the count is still at
the cap the request is denied with the capacity reason and nothing is
registered (the map even shrinks to the swept entries, which keep every entry
still inside the staleness window); the default cap is 100 and the default
staleness threshold 10 minutes. -/
theorem pending_cap_denies (cfg : PendingPermissionsConfig) (mode : PermissionMode)
    (allowedTools : Option (List String)) (now : Int) (uid toolName input : String)
    (pending : List (String × PendingPermission))
    (hmode : mode = PermissionMode.secure)
    (hallowed : isToolAllowed toolName allowedTools = true)
    (hcap : pending.length ≥ cfg.maxPendingPermissions)
    (hstill : (sweepStale cfg now pending).length ≥ cfg.maxPendingPermissions) :
    (canUseToolStep cfg mode allowedTools now uid toolName input pending).1 =
      ToolDecision.denyCapacity ("Too many pending permission requests (max: "
        ++ toString cfg.maxPendingPermissions ++ ")") ∧
    (canUseToolStep cfg mode allowedTools now uid toolName input pending).2 =
      sweepStale cfg now pending ∧
    (∀ e ∈ pending, isStaleEntry cfg now e.2 = false → e ∈ sweepStale cfg now pending) ∧
    DEFAULT_PENDING_PERMISSIONS_CONFIG.maxPendingPermissions = 100 ∧
    DEFAULT_PENDING_PERMISSIONS_CONFIG.staleThresholdMs = 600000 := by
  subst hmode
  have hc1 : (PermissionMode.secure == PermissionMode.free) = false := rfl
  refine ⟨?_, ?_, fun e he hst => ?_, rfl, rfl⟩
  · simp [canUseToolStep, hc1, hallowed, hcap, hstill]
  · simp [canUseToolStep, hc1, hallowed, hcap, hstill]
  · simp only [sweepStale, List.mem_filter]
    exact ⟨he, by simp [hst]⟩

/-- Witness for C7: the 101st request on a cap of 100 with every entry inside
the staleness window is denied with the capacity reason. -/
theorem pending_cap_denies_witness :
    isToolAllowed "Bash" none = true ∧
    ((List.range 100).map (fun i =>
      (toString i, (⟨toString i, "Bash", "x", some 0⟩ : PendingPermission)))).length ≥
      DEFAULT_PENDING_PERMISSIONS_CONFIG.maxPendingPermissions ∧
    (sweepStale DEFAULT_PENDING_PERMISSIONS_CONFIG 0 ((List.range 100).map (fun i =>
      (toString i, (⟨toString i, "Bash", "x", some 0⟩ : PendingPermission))))).length ≥
      DEFAULT_PENDING_PERMISSIONS_CONFIG.maxPendingPermissions ∧
    (canUseToolStep DEFAULT_PENDING_PERMISSIONS_CONFIG .secure none 0 "u101" "Bash" "x"
      ((List.range 100).map (fun i =>
        (toString i, (⟨toString i, "Bash", "x", some 0⟩ : PendingPermission))))).1 =
      ToolDecision.denyCapacity "Too many pending permission requests (max: 100)" :=
  ⟨by decide, by decide, by decide,
    (pending_cap_denies DEFAULT_PENDING_PERMISSIONS_CONFIG .secure none 0 "u101" "Bash" "x"
      ((List.range 100).map (fun i =>
        (toString i, (⟨toString i, "Bash", "x", some 0⟩ : PendingPermission))))
      rfl (by decide) (by decide) (by decide)).1⟩

end Cowork
